import Mathlib

/-!
Shallow embedding of the interactive 2D label canvas engine
(`app/src/js/components/label2d_viewer.tsx`, `components/viewer.ts`,
the `ToolBar` component) of the scalabel labeling tool.

Pixel/scale quantities are modelled as rationals (the source uses JS
numbers only through `+ - * /` and comparisons on these paths). Event
handlers are translated as pure functions from the viewer state and the
event to a list of observable effects; the source methods on these paths
mutate no field of the viewer except through `updateScale` and the key
handlers, which are modelled as state transformers.

The helper module `view/image.ts` (`normalizeMouseCoordinates`,
`toCanvasCoords`, `updateCanvasScale`, `imageDataToHandleId`,
`MIN_SCALE`, `MAX_SCALE`, `UP_RES_RATIO`, `clearCanvas`) and the
drawable collection `drawable/label2d_list.ts` are not part of the
sampled source; they are modelled from the spec where a claim needs
them, and kept abstract (parameters of the model) where only their use
matters.
-/

namespace Scalabel

/-- Raw RGBA byte data as returned by `CanvasRenderingContext2D.getImageData`. -/
abbrev ImageData := List Nat

/-- 2D vector (`math/vector2d`), coordinates as rationals. -/
structure Vector2D where
  x : ℚ
  y : ℚ
deriving DecidableEq, Repr

/-- Result of `display.getBoundingClientRect()`. -/
structure DisplayRect where
  left : ℚ
  top : ℚ
  width : ℚ
  height : ℚ
deriving DecidableEq, Repr

/-- The control canvas rendering context, modelled by the 4x4 RGBA block
that `getImageData x y 4 4` would return at each coordinate. -/
structure Context2D where
  imageData4 : ℚ → ℚ → ImageData

/-- Modelled from the spec: `UP_RES_RATIO` from `view/image.ts` (not under
src/), the up-resolution factor of the control canvas; the spec fixes only
that it is a constant multiplier, the value is chosen here. -/
def UP_RES_RATIO : ℚ := 2

/-- Modelled from the spec: `MIN_SCALE` from `view/image.ts` (not under
src/); the spec fixes only `MIN_SCALE ≤ MAX_SCALE`, the value is chosen
here. -/
def MIN_SCALE : ℚ := 1

/-- Modelled from the spec: `MAX_SCALE` from `view/image.ts` (not under
src/); the spec fixes only `MIN_SCALE ≤ MAX_SCALE`, the value is chosen
here. -/
def MAX_SCALE : ℚ := 3

/-- Modelled from the spec: `normalizeMouseCoordinates` from
`view/image.ts` (not under src/): converts a client position to logical
image coordinates by subtracting the canvas's on-screen origin and
dividing by `displayToImageRatio`; no clamping is performed. -/
def normalizeMouseCoordinates (display : DisplayRect)
    (displayToImageRatio clientX clientY : ℚ) : Vector2D :=
  ⟨(clientX - display.left) / displayToImageRatio,
   (clientY - display.top) / displayToImageRatio⟩

/-- Modelled from the spec: `toCanvasCoords` from `view/image.ts` (not
under src/): maps a logical image point to device canvas coordinates by
multiplying with `displayToImageRatio`, additionally scaled by
`UP_RES_RATIO` when `upRes` is true. -/
def toCanvasCoords (p : Vector2D) (upRes : Bool)
    (displayToImageRatio : ℚ) : ℚ × ℚ :=
  let f := displayToImageRatio * (if upRes then UP_RES_RATIO else 1)
  (p.x * f, p.y * f)

/-- The slice of the image viewer configuration read by `updateScale`. -/
structure ImageViewerConfig where
  viewScale : ℚ
deriving DecidableEq, Repr

/-- Modelled from the spec: `updateCanvasScale` from `view/image.ts` (not
under src/): recomputes the canvas pixel dimensions and the
display-to-image ratio for the target scale and returns
`(width, height, displayToImageRatio, newScale)` with
`newScale = config.viewScale`; the exact dimension formula is not fixed by
the spec, only that dimensions and ratio are recomputed from the display
size and the new scale. -/
def updateCanvasScale (display : DisplayRect) (config : ImageViewerConfig)
    (_zoomRatio : ℚ) (upRes : Bool) : ℚ × ℚ × ℚ × ℚ :=
  let ratio := config.viewScale * (if upRes then UP_RES_RATIO else 1)
  (display.width * ratio, display.height * ratio, ratio, config.viewScale)

/-- The mouse event fields read by the viewer's pointer handlers. -/
structure MouseEvent where
  button : Nat
  clientX : ℚ
  clientY : ℚ
deriving DecidableEq, Repr

/-- The mutable fields of `Label2dViewer` touched by the embedded
methods. Canvas and context references are modelled by their
presence (`null` versus attached). -/
structure ViewerState where
  keyDownMap : List String
  scale : ℚ
  canvasHeight : ℚ
  canvasWidth : ℚ
  displayToImageRatio : ℚ
  display : Option DisplayRect
  labelCanvas : Bool
  labelContext : Bool
  controlCanvas : Bool
  controlContext : Option Context2D

/-- Observable effects of the viewer's handlers: canvas operations,
forwarding to the Label Drawable Collection, DOM-level actions. -/
inductive Effect where
  | clearLabelCanvas : Effect
  | clearControlCanvas : Effect
  | collectionRedraw (ratio : ℚ) : Effect
  | collectionMouseDown (pos : Vector2D) (labelIdx handleIdx : Int) : Effect
  | collectionMouseMove (pos : Vector2D) (imageSize : Vector2D)
      (labelIdx handleIdx : Int) : Effect
  | collectionMouseUp (pos : Vector2D) (labelIdx handleIdx : Int) : Effect
  | readImageData (x y : ℚ) (w h : Nat) : Effect
  | setCursor (c : String) : Effect
  | stopPropagation : Effect
deriving DecidableEq, Repr

/-- Modelled from the spec: the parts of the environment outside the
sampled source that the viewer calls into: the decode side
`imageDataToHandleId` of the control-canvas color protocol
(`view/image.ts`, not under src/), `getCurrentImageSize`, and the boolean
results of the Label Drawable Collection's pointer methods
(`drawable/label2d_list.ts`, not under src/). All are kept abstract; only
their use is specified. -/
structure Env where
  imageDataToHandleId : ImageData → Int × Int
  imageSize : Vector2D
  collectionMouseDownResult : Vector2D → Int → Int → Bool
  collectionMouseMoveResult : Vector2D → Int → Int → Bool

namespace Label2dViewer

/-- `isKeyDown` (label2d_viewer.tsx lines 330-332): whether a key is in
the key-down map. -/
def isKeyDown (s : ViewerState) (key : String) : Bool :=
  s.keyDownMap.contains key

/-- `onKeyDown` (lines 307-310): record the key as down. -/
def onKeyDown (s : ViewerState) (key : String) : ViewerState :=
  { s with keyDownMap := key :: s.keyDownMap }

/-- `onKeyUp` (lines 316-323): remove the key from the map; releasing
Control or Meta resets the cursor to the default crosshair. -/
def onKeyUp (s : ViewerState) (key : String) : ViewerState × List Effect :=
  ({ s with keyDownMap := s.keyDownMap.filter (· ≠ key) },
   if key = "Control" ∨ key = "Meta" then [Effect.setCursor "crosshair"] else [])

/-- `getMousePos` (lines 217-230): normalized image coordinates of the
pointer when display and label canvas exist, `(0, 0)` otherwise. -/
def getMousePos (s : ViewerState) (e : MouseEvent) : Vector2D :=
  match s.display, s.labelCanvas with
  | some d, true =>
      normalizeMouseCoordinates d s.displayToImageRatio e.clientX e.clientY
  | _, _ => ⟨0, 0⟩

/-- `fetchHandleId` (lines 237-245): sample a 4x4 block of the control
canvas at the up-resolved canvas coordinates and decode it; the sentinel
`(-1, 0)` when the control context is null. Returns the decoded pair and
the read effect performed. -/
def fetchHandleId (env : Env) (s : ViewerState) (mousePos : Vector2D) :
    (Int × Int) × List Effect :=
  match s.controlContext with
  | some ctx =>
      let c := toCanvasCoords mousePos true s.displayToImageRatio
      (env.imageDataToHandleId (ctx.imageData4 c.1 c.2),
       [Effect.readImageData c.1 c.2 4 4])
  | none => ((-1, 0), [])

/-- `redraw` (lines 192-201): when both canvases and both contexts exist,
clear both canvases then delegate to the collection's redraw at ratio
`displayToImageRatio * UP_RES_RATIO`; returns `true` unconditionally. -/
def redraw (s : ViewerState) : Bool × List Effect :=
  if s.labelCanvas ∧ s.labelContext ∧ s.controlCanvas ∧ s.controlContext.isSome then
    (true, [Effect.clearLabelCanvas, Effect.clearControlCanvas,
            Effect.collectionRedraw (s.displayToImageRatio * UP_RES_RATIO)])
  else
    (true, [])

/-- `onMouseDown` (lines 251-265): non-primary buttons return
immediately; otherwise, unless Control is held, compute the mouse
position, decode the handle under it and forward to the collection
(stopping propagation when consumed); finally redraw. -/
def onMouseDown (env : Env) (s : ViewerState) (e : MouseEvent) : List Effect :=
  if e.button ≠ 0 then []
  else
    (if ¬ isKeyDown s "Control" then
      let mousePos := getMousePos s e
      let fetched := fetchHandleId env s mousePos
      fetched.2 ++
        [Effect.collectionMouseDown mousePos fetched.1.1 fetched.1.2] ++
        (if env.collectionMouseDownResult mousePos fetched.1.1 fetched.1.2 then
          [Effect.stopPropagation] else [])
    else []) ++ (redraw s).2

/-- `onMouseUp` (lines 271-280): non-primary buttons return immediately;
otherwise compute the mouse position, decode the handle and forward to
the collection unconditionally; finally redraw. -/
def onMouseUp (env : Env) (s : ViewerState) (e : MouseEvent) : List Effect :=
  if e.button ≠ 0 then []
  else
    let mousePos := getMousePos s e
    let fetched := fetchHandleId env s mousePos
    fetched.2 ++
      [Effect.collectionMouseUp mousePos fetched.1.1 fetched.1.2] ++
      (redraw s).2

/-- `onMouseMove` (lines 286-301): reset the cursor when Control is not
held; then (unconditionally) compute the mouse position, decode the
handle and forward to the collection's `onMouseMove`; when the
collection reports a repaint is needed, stop propagation and redraw. -/
def onMouseMove (env : Env) (s : ViewerState) (e : MouseEvent) : List Effect :=
  (if ¬ isKeyDown s "Control" then [Effect.setCursor "crosshair"] else []) ++
    (let mousePos := getMousePos s e
     let fetched := fetchHandleId env s mousePos
     fetched.2 ++
       [Effect.collectionMouseMove mousePos env.imageSize fetched.1.1 fetched.1.2] ++
       (if env.collectionMouseMoveResult mousePos fetched.1.1 fetched.1.2 then
         [Effect.stopPropagation] ++ (redraw s).2 else []))

/-- `updateScale` (lines 339-370): a no-op when the display is absent or
the requested `viewScale` is below `MIN_SCALE` or at/above `MAX_SCALE`;
otherwise store the dimensions, ratio and scale returned by
`updateCanvasScale`. -/
def updateScale (s : ViewerState) (config : ImageViewerConfig)
    (upRes : Bool) : ViewerState :=
  match s.display with
  | none => s
  | some d =>
      if config.viewScale < MIN_SCALE ∨ MAX_SCALE ≤ config.viewScale then s
      else
        let r := updateCanvasScale d config (config.viewScale / s.scale) upRes
        { s with canvasWidth := r.1, canvasHeight := r.2.1,
                 displayToImageRatio := r.2.2.1, scale := r.2.2.2 }

/-- A DOM event listener registration: target and event name. -/
structure ListenerReg where
  target : String
  event : String
deriving DecidableEq, Repr

/-- `componentDidMount` (lines 112-115): the document-level listeners the
viewer attaches on mount — keydown and keyup only. -/
def componentDidMountListeners : List ListenerReg :=
  [⟨"document", "keydown"⟩, ⟨"document", "keyup"⟩]

/-- `render` (lines 157-175): the canvas-scoped pointer listeners wired
onto the label canvas element via React props. -/
def labelCanvasListeners : List ListenerReg :=
  [⟨"labelCanvas", "mousedown"⟩, ⟨"labelCanvas", "mouseup"⟩,
   ⟨"labelCanvas", "mousemove"⟩]

/-- All event listeners the viewer ever registers: the document-level
ones from `componentDidMount` plus the canvas-scoped ones from `render`.
Neither `Label2dViewer` nor its base class `Viewer` declares a
`componentWillUnmount`, so no listener is ever removed. -/
def viewerListeners : List ListenerReg :=
  componentDidMountListeners ++ labelCanvasListeners

/-- Listener removals performed on unmount: `Label2dViewer` declares no
`componentWillUnmount` (nor does `Viewer`), and the private bound
handlers are not visible to any base class, so nothing is removed. -/
def componentWillUnmountRemovals : List ListenerReg := []

/-- The document-level listener list after running a mount followed by an
unmount, starting from `before`. -/
def docListenersAfterMountUnmount (before : List ListenerReg) : List ListenerReg :=
  (before ++ componentDidMountListeners).filter
    (fun l => ¬ l ∈ componentWillUnmountRemovals)

end Label2dViewer

namespace ToolBar

/-- Outbound actions dispatched to the store by the ToolBar paths
modelled here (`deleteLabel` from `action/common`, identified by its
payload). -/
inductive Action where
  | deleteLabel (item : Int) (label : Int) : Action
deriving DecidableEq, Repr

/-- The `user.select` slice of the state snapshot. -/
structure SelectState where
  item : Int
  label : Int
deriving DecidableEq, Repr

/-- `ToolBar.keyDownHandler` (toolbar source lines 52-59): on Backspace
with a selected label, dispatch `deleteLabel(select.item, select.label)`;
otherwise dispatch nothing. Returns the list of dispatched actions. -/
def keyDownHandler (key : String) (select : SelectState) : List Action :=
  if key = "Backspace" then
    if 0 ≤ select.label then
      [Action.deleteLabel select.item select.label]
    else []
  else []

/-- `onDeleteLabel` (toolbar source lines 18-23): the delete button
callback; dispatches `deleteLabel` exactly when a label is selected. -/
def onDeleteLabel (select : SelectState) : List Action :=
  if 0 ≤ select.label then
    [Action.deleteLabel select.item select.label]
  else []

end ToolBar

/-! ### Concrete fixtures used by counterexamples and witnesses -/

/-- A concrete environment: decode always yields `(0, 0)`, the collection
consumes nothing. -/
def env0 : Env :=
  { imageDataToHandleId := fun _ => (0, 0)
    imageSize := ⟨0, 0⟩
    collectionMouseDownResult := fun _ _ _ => false
    collectionMouseMoveResult := fun _ _ _ => false }

/-- A concrete control context whose sampled blocks are all empty. -/
def ctx0 : Context2D := ⟨fun _ _ => []⟩

/-- A concrete display rectangle. -/
def disp0 : DisplayRect := ⟨0, 0, 100, 100⟩

/-- A fully mounted viewer state at scale 1. -/
def mounted0 : ViewerState :=
  { keyDownMap := []
    scale := 1
    canvasHeight := 0
    canvasWidth := 0
    displayToImageRatio := 1
    display := some disp0
    labelCanvas := true
    labelContext := true
    controlCanvas := true
    controlContext := some ctx0 }

/-- A not-yet-mounted viewer state: every reference is null. -/
def unmounted0 : ViewerState :=
  { keyDownMap := []
    scale := 1
    canvasHeight := 0
    canvasWidth := 0
    displayToImageRatio := 1
    display := none
    labelCanvas := false
    labelContext := false
    controlCanvas := false
    controlContext := none }

/-- A mounted viewer state with the Control key held down. -/
def ctrlMounted0 : ViewerState := { mounted0 with keyDownMap := ["Control"] }

/-- A concrete primary-button mouse event. -/
def ev0 : MouseEvent := ⟨0, 10, 10⟩

open Label2dViewer ToolBar

/-! ### Claims -/

/-- Claim C1, counterexample: the viewer registers no document-level
mouse-up listener at all — `componentDidMount` attaches only keydown and
keyup to the document, and the mouse-up handler is wired canvas-scoped in
`render` — so a pointer release outside the canvas is not observed
through a globally attached listener. -/
theorem C1_counterexample :
    (⟨"document", "mouseup"⟩ : ListenerReg) ∉ viewerListeners ∧
    (∀ l ∈ viewerListeners, l.target = "document" → l.event ≠ "mouseup") := by
  decide

/-- Claim C1, amended: mouse-up is observed only through the
canvas-scoped listener on the label canvas; the document-level listeners
attached on mount are exactly keydown and keyup, and no listener
observes a release outside the canvas. -/
theorem C1_amended_canvas_scoped_mouseup :
    componentDidMountListeners =
      [⟨"document", "keydown"⟩, ⟨"document", "keyup"⟩] ∧
    (⟨"labelCanvas", "mouseup"⟩ : ListenerReg) ∈ viewerListeners ∧
    (∀ l ∈ viewerListeners, l.event = "mouseup" → l.target = "labelCanvas") := by
  decide

/-- Claim C9, counterexample: starting from a document with no
listeners, a mount/unmount pair of the viewer leaves keydown and keyup
attached — the class declares no `componentWillUnmount`, so the
document's set of listeners is changed by the pair, not restored. -/
theorem C9_counterexample :
    docListenersAfterMountUnmount [] =
      [⟨"document", "keydown"⟩, ⟨"document", "keyup"⟩] ∧
    docListenersAfterMountUnmount [] ≠ [] := by
  decide

/-- Claim C9, amended: the viewer's global keydown and keyup listeners
are attached to the document on mount but never detached — the viewer
declares no unmount cleanup — so after a mount/unmount pair the document
has gained exactly those two listeners. -/
theorem C9_amended_listeners_never_detached (before : List ListenerReg) :
    docListenersAfterMountUnmount before = before ++ componentDidMountListeners ∧
    componentWillUnmountRemovals = [] ∧
    (⟨"document", "keydown"⟩ : ListenerReg) ∈ componentDidMountListeners ∧
    (⟨"document", "keyup"⟩ : ListenerReg) ∈ componentDidMountListeners := by
  refine ⟨?_, rfl, by decide, by decide⟩
  unfold docListenersAfterMountUnmount
  exact List.filter_eq_self.mpr (fun a _ => rfl)

/-- Claim C7, counterexample: with every canvas and context reference
null, `redraw` performs no drawing at all yet still returns `true`, so
its boolean return value does not report whether any drawing occurred. -/
theorem C7_counterexample :
    (redraw unmounted0).1 = true ∧ (redraw unmounted0).2 = [] := by
  decide

/-- Claim C7, amended: `redraw()` returns `true` unconditionally (even
when the canvases do not yet exist and nothing is drawn); when both
canvases and both contexts exist it first clears the label canvas, then
the control canvas, then delegates to the Collection's redraw at ratio
`displayToImageRatio * UP_RES_RATIO`; when any reference is missing it
draws nothing. -/
theorem C7_amended_redraw_clears_then_delegates (s : ViewerState) :
    (redraw s).1 = true ∧
    (s.labelCanvas = true → s.labelContext = true → s.controlCanvas = true →
      s.controlContext.isSome = true →
      (redraw s).2 = [Effect.clearLabelCanvas, Effect.clearControlCanvas,
        Effect.collectionRedraw (s.displayToImageRatio * UP_RES_RATIO)]) ∧
    ((s.labelCanvas = false ∨ s.labelContext = false ∨ s.controlCanvas = false ∨
      s.controlContext = none) → (redraw s).2 = []) := by
  refine ⟨?_, ?_, ?_⟩
  · unfold redraw
    split <;> rfl
  · intro h1 h2 h3 h4
    simp [redraw, h1, h2, h3, h4]
  · intro h
    unfold redraw
    rcases h with h | h | h | h <;>
      simp [h]

/-- Claim C7, witness for the amended theorem at the mounted and
unmounted fixtures. -/
theorem C7_amended_witness :
    (redraw mounted0).2 = [Effect.clearLabelCanvas, Effect.clearControlCanvas,
      Effect.collectionRedraw (1 * UP_RES_RATIO)] ∧
    (redraw unmounted0).2 = [] :=
  ⟨(C7_amended_redraw_clears_then_delegates mounted0).2.1 rfl rfl rfl rfl,
   (C7_amended_redraw_clears_then_delegates unmounted0).2.2 (Or.inl rfl)⟩

/-- Claim C10: a mouse-down or mouse-up event whose button is not the
primary one makes the handler return immediately: no coordinate
computation, no control-canvas read, no forwarding to the collection, no
redraw — the effect trace is empty (and the handlers touch no state). -/
theorem C10_nonprimary_button_noop (env : Env) (s : ViewerState)
    (e : MouseEvent) (h : e.button ≠ 0) :
    onMouseDown env s e = [] ∧ onMouseUp env s e = [] := by
  constructor <;> simp [onMouseDown, onMouseUp, h]

/-- Claim C10, witness: a right-button event at the mounted fixture. -/
theorem C10_witness :
    onMouseDown env0 mounted0 ⟨2, 10, 10⟩ = [] ∧
    onMouseUp env0 mounted0 ⟨2, 10, 10⟩ = [] :=
  C10_nonprimary_button_noop env0 mounted0 ⟨2, 10, 10⟩ (by decide)

/-- Helper: `updateScale` either leaves the state unchanged or stores
exactly the requested `viewScale`, and a request at or above `MAX_SCALE`
or below `MIN_SCALE` is always the identity. -/
theorem updateScale_cases (s : ViewerState) (c : ImageViewerConfig) (u : Bool) :
    updateScale s c u = s ∨
    ((updateScale s c u).scale = c.viewScale ∧
      MIN_SCALE ≤ c.viewScale ∧ c.viewScale < MAX_SCALE) := by
  unfold updateScale
  rcases s.display with _ | d
  · exact Or.inl rfl
  · dsimp only
    by_cases h : c.viewScale < MIN_SCALE ∨ MAX_SCALE ≤ c.viewScale
    · rw [if_pos h]
      exact Or.inl rfl
    · rw [if_neg h]
      push_neg at h
      exact Or.inr ⟨rfl, h.1, h.2⟩

/-- Helper: `updateScale` preserves the invariant
`MIN_SCALE ≤ scale < MAX_SCALE`. -/
theorem updateScale_scale_mem (s : ViewerState) (c : ImageViewerConfig)
    (u : Bool) (h1 : MIN_SCALE ≤ s.scale) (h2 : s.scale < MAX_SCALE) :
    MIN_SCALE ≤ (updateScale s c u).scale ∧
      (updateScale s c u).scale < MAX_SCALE := by
  rcases updateScale_cases s c u with h | ⟨hsc, hlo, hhi⟩
  · rw [h]; exact ⟨h1, h2⟩
  · rw [hsc]; exact ⟨hlo, hhi⟩

/-- Claim C2, counterexample: `MAX_SCALE` itself lies inside the closed
interval `[MIN_SCALE, MAX_SCALE]`, yet a request with
`viewScale = MAX_SCALE` is rejected (the state, including the stored
scale, is unchanged): the guard in `updateScale` tests
`viewScale >= MAX_SCALE`, so the upper endpoint is not applied as the
claim states. -/
theorem C2_counterexample :
    MIN_SCALE ≤ MAX_SCALE ∧
    updateScale mounted0 ⟨MAX_SCALE⟩ true = mounted0 ∧
    mounted0.scale ≠ MAX_SCALE := by
  refine ⟨by norm_num [MIN_SCALE, MAX_SCALE], rfl,
    by norm_num [mounted0, MAX_SCALE]⟩

/-- Claim C2, amended: a request whose `viewScale` is below `MIN_SCALE`
or at/above `MAX_SCALE` is silently rejected as a no-op (canvas width,
canvas height, `displayToImageRatio` and `scale` all keep their previous
values); a request with `MIN_SCALE ≤ viewScale < MAX_SCALE` on a mounted
display is applied; hence over any sequence of requests the realized
scale stays within `[MIN_SCALE, MAX_SCALE)`, provided it starts there. -/
theorem C2_amended_scale_clamped (s : ViewerState) (c : ImageViewerConfig)
    (u : Bool) (d : DisplayRect) (reqs : List (ImageViewerConfig × Bool)) :
    ((c.viewScale < MIN_SCALE ∨ MAX_SCALE ≤ c.viewScale) →
      updateScale s c u = s) ∧
    (s.display = some d → MIN_SCALE ≤ c.viewScale → c.viewScale < MAX_SCALE →
      (updateScale s c u).scale = c.viewScale) ∧
    (MIN_SCALE ≤ s.scale → s.scale < MAX_SCALE →
      MIN_SCALE ≤ (reqs.foldl (fun t r => updateScale t r.1 r.2) s).scale ∧
      (reqs.foldl (fun t r => updateScale t r.1 r.2) s).scale < MAX_SCALE) := by
  refine ⟨?_, ?_, ?_⟩
  · intro h
    unfold updateScale
    rcases s.display with _ | d0
    · rfl
    · dsimp only
      rw [if_pos h]
  · intro hd hlo hhi
    unfold updateScale
    rw [hd]
    dsimp only
    rw [if_neg (fun hcon => hcon.elim (fun h1 => absurd hlo (not_le.mpr h1))
      (fun h1 => absurd hhi (not_lt.mpr h1)))]
    rfl
  · induction reqs generalizing s with
    | nil => intro h1 h2; exact ⟨h1, h2⟩
    | cons r rs ih =>
        intro h1 h2
        have h3 := updateScale_scale_mem s r.1 r.2 h1 h2
        exact ih (updateScale s r.1 r.2) h3.1 h3.2

/-- Claim C2, witness for the amended theorem: at the mounted fixture a
request of scale 2 is applied, an out-of-range request of scale 5 is a
no-op, and a two-request sequence keeps the scale within range. -/
theorem C2_amended_witness :
    updateScale mounted0 ⟨5⟩ true = mounted0 ∧
    (updateScale mounted0 ⟨2⟩ true).scale = 2 ∧
    (MIN_SCALE ≤
      ([(⟨2⟩, true), (⟨5⟩, false)].foldl
        (fun t r => updateScale t r.1 r.2) mounted0).scale ∧
      ([(⟨2⟩, true), (⟨5⟩, false)].foldl
        (fun t r => updateScale t r.1 r.2) mounted0).scale < MAX_SCALE) :=
  ⟨(C2_amended_scale_clamped mounted0 ⟨5⟩ true disp0 []).1
      (Or.inr (by norm_num [MAX_SCALE])),
   (C2_amended_scale_clamped mounted0 ⟨2⟩ true disp0 []).2.1 rfl
      (by norm_num [MIN_SCALE]) (by norm_num [MAX_SCALE]),
   (C2_amended_scale_clamped mounted0 ⟨2⟩ true disp0
      [(⟨2⟩, true), (⟨5⟩, false)]).2.2
      (by norm_num [MIN_SCALE, mounted0]) (by norm_num [MAX_SCALE, mounted0])⟩

/-- Claim C8: pressing Backspace while a label is selected
(`select.label >= 0`) dispatches exactly one delete-label action carrying
`(select.item, select.label)`; pressing Backspace with no selection
dispatches nothing. -/
theorem C8_backspace_deletes_selected (select : SelectState) :
    (0 ≤ select.label →
      keyDownHandler "Backspace" select =
        [Action.deleteLabel select.item select.label]) ∧
    (select.label < 0 → keyDownHandler "Backspace" select = []) := by
  constructor
  · intro h
    simp [keyDownHandler, h]
  · intro h
    simp [keyDownHandler, not_le.mpr h]

/-- Claim C8, witness: with label 5 of item 2 selected, Backspace
dispatches exactly the delete of that label; with no selection it
dispatches nothing. -/
theorem C8_witness :
    keyDownHandler "Backspace" ⟨2, 5⟩ = [Action.deleteLabel 2 5] ∧
    keyDownHandler "Backspace" ⟨2, -1⟩ = [] :=
  ⟨(C8_backspace_deletes_selected ⟨2, 5⟩).1 (by norm_num),
   (C8_backspace_deletes_selected ⟨2, -1⟩).2 (by norm_num)⟩

/-- Claim C3, counterexample: with the Control key held down (panning),
a mouse-move is still forwarded to the collection's `onMouseMove` — the
Control check in the handler gates only the cursor update, not the
forwarding. -/
theorem C3_counterexample :
    isKeyDown ctrlMounted0 "Control" = true ∧
    Effect.collectionMouseMove (getMousePos ctrlMounted0 ev0) env0.imageSize
      (fetchHandleId env0 ctrlMounted0 (getMousePos ctrlMounted0 ev0)).1.1
      (fetchHandleId env0 ctrlMounted0 (getMousePos ctrlMounted0 ev0)).1.2 ∈
      onMouseMove env0 ctrlMounted0 ev0 := by
  constructor
  · rfl
  · unfold onMouseMove
    simp

/-- Claim C3, amended: the mouse-move handler always forwards the
pointer position (and the decoded handle pair) to the collection's
`onMouseMove`, whether or not the pan modifier is held; only the cursor
update is performed exactly when Control is not held. -/
theorem C3_amended_mousemove_always_forwards (env : Env) (s : ViewerState)
    (e : MouseEvent) :
    Effect.collectionMouseMove (getMousePos s e) env.imageSize
      (fetchHandleId env s (getMousePos s e)).1.1
      (fetchHandleId env s (getMousePos s e)).1.2 ∈ onMouseMove env s e ∧
    (Effect.setCursor "crosshair" ∈ onMouseMove env s e ↔
      isKeyDown s "Control" = false) := by
  constructor
  · unfold onMouseMove
    simp
  · cases hk : isKeyDown s "Control" <;>
      rcases hc : s.controlContext with _ | ctx <;>
        (simp [onMouseMove, fetchHandleId, redraw, hk, hc];
          try (split <;> simp))

/-- Claim C3, witness for the amended theorem: at the mounted fixture
with no key held, the cursor update occurs. -/
theorem C3_amended_witness :
    Effect.setCursor "crosshair" ∈ onMouseMove env0 mounted0 ev0 :=
  (C3_amended_mousemove_always_forwards env0 mounted0 ev0).2.mpr rfl

/-- Claim C4: a primary-button mouse-up is always forwarded to the
collection's `onMouseUp` with the pointer position and the decoded
handle pair, and the handler's behavior is entirely independent of
which keys are held down (no modifier-key gate). -/
theorem C4_mouseup_always_forwards (env : Env) (s : ViewerState)
    (e : MouseEvent) (ks : List String) (h : e.button = 0) :
    Effect.collectionMouseUp (getMousePos s e)
      (fetchHandleId env s (getMousePos s e)).1.1
      (fetchHandleId env s (getMousePos s e)).1.2 ∈ onMouseUp env s e ∧
    onMouseUp env { s with keyDownMap := ks } e = onMouseUp env s e := by
  constructor
  · simp [onMouseUp, h]
  · simp [onMouseUp, getMousePos, fetchHandleId, redraw]

/-- Claim C4, witness: at the mounted fixture, the primary-button
mouse-up is forwarded to the collection, and holding Control changes
nothing about the handler's output. -/
theorem C4_witness :
    Effect.collectionMouseUp (getMousePos mounted0 ev0)
      (fetchHandleId env0 mounted0 (getMousePos mounted0 ev0)).1.1
      (fetchHandleId env0 mounted0 (getMousePos mounted0 ev0)).1.2 ∈
        onMouseUp env0 mounted0 ev0 ∧
    onMouseUp env0 { mounted0 with keyDownMap := ["Control"] } ev0 =
      onMouseUp env0 mounted0 ev0 :=
  C4_mouseup_always_forwards env0 mounted0 ev0 ["Control"] rfl

/-- Claim C5: on a primary-button mouse-down with the pan modifier
(Control) held, nothing is forwarded to the collection's `onMouseDown`
and the control canvas is not sampled; without the modifier, the handler
forwards the logical pointer position together with the handle pair
obtained by sampling a 4x4 block of the control canvas at the
up-resolved canvas coordinates of that position and decoding it with
`imageDataToHandleId`. -/
theorem C5_mousedown_decodes_and_forwards (env : Env) (s : ViewerState)
    (e : MouseEvent) (h : e.button = 0) :
    (isKeyDown s "Control" = true →
      (∀ p a b, Effect.collectionMouseDown p a b ∉ onMouseDown env s e) ∧
      (∀ x y w h2, Effect.readImageData x y w h2 ∉ onMouseDown env s e)) ∧
    (isKeyDown s "Control" = false →
      Effect.collectionMouseDown (getMousePos s e)
        (fetchHandleId env s (getMousePos s e)).1.1
        (fetchHandleId env s (getMousePos s e)).1.2 ∈ onMouseDown env s e ∧
      (∀ ctx, s.controlContext = some ctx →
        Effect.readImageData
          (toCanvasCoords (getMousePos s e) true s.displayToImageRatio).1
          (toCanvasCoords (getMousePos s e) true s.displayToImageRatio).2 4 4 ∈
          onMouseDown env s e ∧
        (fetchHandleId env s (getMousePos s e)).1 =
          env.imageDataToHandleId (ctx.imageData4
            (toCanvasCoords (getMousePos s e) true s.displayToImageRatio).1
            (toCanvasCoords (getMousePos s e) true s.displayToImageRatio).2))) := by
  constructor
  · intro hk
    have heq : onMouseDown env s e = (redraw s).2 := by
      simp [onMouseDown, h, hk]
    constructor
    · intro p a b
      rw [heq]
      unfold redraw
      split <;> simp
    · intro x y w h2
      rw [heq]
      unfold redraw
      split <;> simp
  · intro hk
    constructor
    · simp [onMouseDown, h, hk]
    · intro ctx hc
      constructor
      · simp [onMouseDown, h, hk, fetchHandleId, hc]
      · simp [fetchHandleId, hc]

/-- Claim C5, witness: at the mounted fixture without Control, the
mouse-down forwards the decoded handle pair to the collection and reads
the 4x4 block at the up-resolved coordinates. -/
theorem C5_witness :
    Effect.collectionMouseDown (getMousePos mounted0 ev0)
      (fetchHandleId env0 mounted0 (getMousePos mounted0 ev0)).1.1
      (fetchHandleId env0 mounted0 (getMousePos mounted0 ev0)).1.2 ∈
        onMouseDown env0 mounted0 ev0 ∧
    Effect.readImageData
      (toCanvasCoords (getMousePos mounted0 ev0) true
        mounted0.displayToImageRatio).1
      (toCanvasCoords (getMousePos mounted0 ev0) true
        mounted0.displayToImageRatio).2 4 4 ∈
      onMouseDown env0 mounted0 ev0 :=
  ⟨((C5_mousedown_decodes_and_forwards env0 mounted0 ev0 rfl).2 rfl).1,
   (((C5_mousedown_decodes_and_forwards env0 mounted0 ev0 rfl).2 rfl).2
      ctx0 rfl).1⟩

/-- Claim C6: with a null display, canvas or context reference (the
component not yet mounted), the affected operations degrade to total
no-ops: `getMousePos` returns the origin, `fetchHandleId` returns the
`(-1, 0)` sentinel with no canvas read, `redraw` draws nothing (while
still returning `true`), and `updateScale` leaves the state unchanged;
none of them throws (all are total functions) and none dispatches any
mutation. -/
theorem C6_null_refs_noop (s : ViewerState) (e : MouseEvent) (env : Env)
    (p : Vector2D) (c : ImageViewerConfig) (u : Bool) :
    ((s.display = none ∨ s.labelCanvas = false) → getMousePos s e = ⟨0, 0⟩) ∧
    (s.controlContext = none → fetchHandleId env s p = ((-1, 0), [])) ∧
    ((s.labelCanvas = false ∨ s.labelContext = false ∨
      s.controlCanvas = false ∨ s.controlContext = none) →
      (redraw s).2 = [] ∧ (redraw s).1 = true) ∧
    (s.display = none → updateScale s c u = s) := by
  refine ⟨?_, ?_, ?_, ?_⟩
  · intro h
    rcases hd : s.display with _ | d
    · simp [getMousePos, hd]
    · rcases hl : s.labelCanvas
      · simp [getMousePos, hd, hl]
      · rcases h with h | h
        · rw [hd] at h; exact absurd h (by simp)
        · rw [hl] at h; exact absurd h (by simp)
  · intro h
    simp [fetchHandleId, h]
  · intro h
    rcases h with h | h | h | h <;> simp [redraw, h]
  · intro h
    simp [updateScale, h]

/-- Claim C6, witness: at the fully unmounted fixture all four
operations take their degraded values. -/
theorem C6_witness :
    getMousePos unmounted0 ev0 = ⟨0, 0⟩ ∧
    fetchHandleId env0 unmounted0 ⟨3, 4⟩ = ((-1, 0), []) ∧
    (redraw unmounted0).2 = [] ∧
    updateScale unmounted0 ⟨2⟩ true = unmounted0 :=
  ⟨(C6_null_refs_noop unmounted0 ev0 env0 ⟨3, 4⟩ ⟨2⟩ true).1 (Or.inl rfl),
   (C6_null_refs_noop unmounted0 ev0 env0 ⟨3, 4⟩ ⟨2⟩ true).2.1 rfl,
   ((C6_null_refs_noop unmounted0 ev0 env0 ⟨3, 4⟩ ⟨2⟩ true).2.2.1
      (Or.inl rfl)).1,
   (C6_null_refs_noop unmounted0 ev0 env0 ⟨3, 4⟩ ⟨2⟩ true).2.2.2 rfl⟩

/-- Claim C1, witness for the amended theorem: the registered mouse-up
listener is canvas-scoped. -/
theorem C1_amended_witness :
    ListenerReg.target ⟨"labelCanvas", "mouseup"⟩ = "labelCanvas" :=
  C1_amended_canvas_scoped_mouseup.2.2 ⟨"labelCanvas", "mouseup"⟩
    (by decide) rfl

/-- Claim C9, witness for the amended theorem at a concrete prior
listener list. -/
theorem C9_amended_witness :
    docListenersAfterMountUnmount [⟨"document", "mousedown"⟩] =
      [⟨"document", "mousedown"⟩] ++ componentDidMountListeners :=
  (C9_amended_listeners_never_detached [⟨"document", "mousedown"⟩]).1

end Scalabel
